import Mathlib

/-!
Verification development for the visual-explanations MCP server.

The embedding follows the Python sources:
  * `animation_schema.py` — the pydantic data model (`SceneType`, `ActorType`,
    `Actor`, `TimelineEvent`, ` Annotation`, `CameraSettings`,
    `AnimationInstructions`) together with its canonical decode (pydantic
    validation of raw decoded JSON, applying the declared defaults) and encode
    (`model_dump_json`, here split into a JSON-tree encoder and a renderer).
  * `llm_integration.py` — the mock/fallback reply selection
    (`LLMIntegrator._mock_response`) and
    `LLMIntegrator.validate_animation_instructions`.
  * `mcp_server.py` — `AnimationCompiler.compile_animation`,
    `AnimationCompiler._get_animation_engine_code` (a read of the
    `animation_engine.js` file, modelled by an explicit environment) and the
    `/query` handler `query_mcp`.

JSON documents are modelled as trees over exact rationals (the numeric
payloads of the program are decimal literals, so `Rat` represents them
without loss).
-/

/-- Raw decoded JSON, the input type of the canonical decode function. -/
inductive Json where
  | null
  | bool (b : Bool)
  | num (q : Rat)
  | str (s : String)
  | arr (xs : List Json)
  | obj (kvs : List (String × Json))

/-- Key lookup in a decoded JSON object (Python `dict` access / `in`). -/
def getField : List (String × Json) → String → Option Json
  | [], _ => none
  | (k, v) :: rest, key => if k == key then some v else getField rest key

/-- Model of `SceneType` from `animation_schema.py`. -/
inductive SceneType where
  | SOLAR_SYSTEM
  | PHOTOSYNTHESIS
  | CIRCUIT
  | WAVE_INTERFERENCE
  | MOLECULAR
  | CUSTOM
deriving DecidableEq

/-- Model of `ActorType` from `animation_schema.py`. -/
inductive ActorType where
  | SPHERE
  | CUBE
  | PLANE
  | CYLINDER
  | PARTICLE_SYSTEM
  | LINE
  | TEXT
deriving DecidableEq

/-- The string value of each `SceneType` member. -/
def sceneTypeToString : SceneType → String
  | .SOLAR_SYSTEM => "solar_system"
  | .PHOTOSYNTHESIS => "photosynthesis"
  | .CIRCUIT => "circuit"
  | .WAVE_INTERFERENCE => "wave_interference"
  | .MOLECULAR => "molecular"
  | .CUSTOM => "custom"

/-- Enum lookup by value for `SceneType` (`SceneType("...")`). -/
def parseSceneType (s : String) : Option SceneType :=
  if s == "solar_system" then some .SOLAR_SYSTEM
  else if s == "photosynthesis" then some .PHOTOSYNTHESIS
  else if s == "circuit" then some .CIRCUIT
  else if s == "wave_interference" then some .WAVE_INTERFERENCE
  else if s == "molecular" then some .MOLECULAR
  else if s == "custom" then some .CUSTOM
  else none

/-- The string value of each `ActorType` member. -/
def actorTypeToString : ActorType → String
  | .SPHERE => "sphere"
  | .CUBE => "cube"
  | .PLANE => "plane"
  | .CYLINDER => "cylinder"
  | .PARTICLE_SYSTEM => "particle_system"
  | .LINE => "line"
  | .TEXT => "text"

/-- Enum lookup by value for `ActorType`. -/
def parseActorType (s : String) : Option ActorType :=
  if s == "sphere" then some .SPHERE
  else if s == "cube" then some .CUBE
  else if s == "plane" then some .PLANE
  else if s == "cylinder" then some .CYLINDER
  else if s == "particle_system" then some .PARTICLE_SYSTEM
  else if s == "line" then some .LINE
  else if s == "text" then some .TEXT
  else none

/-- Model of `Actor` from `animation_schema.py`, fields in declaration order. -/
structure Actor where
  id : String
  type : ActorType
  radius : Option Rat
  color : String
  position : List Rat
  rotation : List Rat
  scale : List Rat
  mass : Option Rat
  velocity : Option (List Rat)
  tilt : Option Rat
  orbit_radius : Option Rat
  emissive : Option String
  opacity : Option Rat
  text_content : Option String
  font_size : Option Rat

/-- Model of `TimelineEvent` from `animation_schema.py`. -/
structure TimelineEvent where
  time : Rat
  properties : List (String × Json)
  duration : Option Rat
  easing : String

/-- Model of `Annotation` from `animation_schema.py`. -/
structure Annotation where
  time : Rat
  text : String
  position : Option (List Rat)
  duration : Option Rat
  style : Option (List (String × String))

/-- Model of `CameraSettings` from `animation_schema.py`. -/
structure CameraSettings where
  position : List Rat
  target : List Rat
  fov : Rat
  follow_actor : Option String

/-- Model of `AnimationInstructions` from `animation_schema.py` (the root model). -/
structure AnimationInstructions where
  scene : SceneType
  actors : List Actor
  timeline : List TimelineEvent
  annotations : List Annotation
  camera : Option CameraSettings
  duration : Rat
  loop : Bool

/-! ### Field validators

Each helper consumes the result of `getField` for one declared field and
mirrors the pydantic behaviour for that field declaration: a missing key takes
the declared default (or errors if the field is required), an explicit `null`
is accepted only by `Optional` fields, and a present value must have the
declared primitive shape. -/

def asStr : Json → Except String String
  | .str s => Except.ok s
  | _ => Except.error "expected string"

def asNum : Json → Except String Rat
  | .num q => Except.ok q
  | _ => Except.error "expected number"

def asBool : Json → Except String Bool
  | .bool b => Except.ok b
  | _ => Except.error "expected boolean"

def asObj : Json → Except String (List (String × Json))
  | .obj kvs => Except.ok kvs
  | _ => Except.error "expected object"

def asArr : Json → Except String (List Json)
  | .arr xs => Except.ok xs
  | _ => Except.error "expected array"

/-- Error-propagating map, the validation of a homogeneous JSON list. -/
def mapEx {α β : Type} (f : α → Except String β) : List α → Except String (List β)
  | [] => Except.ok []
  | x :: t => do
      let y ← f x
      let ys ← mapEx f t
      pure (y :: ys)

def asNumList (j : Json) : Except String (List Rat) := do
  let xs ← asArr j
  mapEx asNum xs

/-- Required field of any JSON shape. -/
def fieldReq (key : String) : Option Json → Except String Json
  | some v => Except.ok v
  | none => Except.error (key ++ ": field required")

/-- Required `str` field. -/
def fieldReqStr (key : String) : Option Json → Except String String
  | some v => asStr v
  | none => Except.error (key ++ ": field required")

/-- Required `float` field. -/
def fieldReqNum (key : String) : Option Json → Except String Rat
  | some v => asNum v
  | none => Except.error (key ++ ": field required")

/-- Required `Dict[str, Any]` field. -/
def fieldReqProps (key : String) : Option Json → Except String (List (String × Json))
  | some v => asObj v
  | none => Except.error (key ++ ": field required")

/-- Model of `Optional[float] = None` field. -/
def fieldOptNum : Option Json → Except String (Option Rat)
  | none => Except.ok none
  | some .null => Except.ok none
  | some v => Except.map some (asNum v)

/-- Model of `Optional[float] = d` field (a non-`None` numeric default). -/
def fieldOptNumD (d : Rat) : Option Json → Except String (Option Rat)
  | none => Except.ok (some d)
  | some .null => Except.ok none
  | some v => Except.map some (asNum v)

/-- Model of `str = d` field. -/
def fieldStrD (d : String) : Option Json → Except String String
  | none => Except.ok d
  | some v => asStr v

/-- Model of `List[float] = d` field. -/
def fieldVecD (d : List Rat) : Option Json → Except String (List Rat)
  | none => Except.ok d
  | some v => asNumList v

/-- Model of `Optional[List[float]] = None` field. -/
def fieldOptVec : Option Json → Except String (Option (List Rat))
  | none => Except.ok none
  | some .null => Except.ok none
  | some v => Except.map some (asNumList v)

/-- Model of `Optional[str] = None` field. -/
def fieldOptStr : Option Json → Except String (Option String)
  | none => Except.ok none
  | some .null => Except.ok none
  | some v => Except.map some (asStr v)

/-- Model of `float = d` field. -/
def fieldNumD (d : Rat) : Option Json → Except String Rat
  | none => Except.ok d
  | some v => asNum v

/-- Model of `bool = d` field. -/
def fieldBoolD (d : Bool) : Option Json → Except String Bool
  | none => Except.ok d
  | some v => asBool v

def asStrPair (kv : String × Json) : Except String (String × String) := do
  let s ← asStr kv.2
  pure (kv.1, s)

/-- Model of `Optional[Dict[str, str]] = None` field. -/
def fieldOptStrMap : Option Json → Except String (Option (List (String × String)))
  | none => Except.ok none
  | some .null => Except.ok none
  | some v => do
      let kvs ← asObj v
      let m ← mapEx asStrPair kvs
      pure (some m)

/-- Decode one enum value with lookup failure reported. -/
def decodeSceneType (s : String) : Except String SceneType :=
  match parseSceneType s with
  | some t => Except.ok t
  | none => Except.error ("scene: value is not a valid enumeration member: " ++ s)

def decodeActorType (s : String) : Except String ActorType :=
  match parseActorType s with
  | some t => Except.ok t
  | none => Except.error ("type: value is not a valid enumeration member: " ++ s)

/-- Canonical decode of an `Actor` from raw JSON, applying the declared
defaults of `animation_schema.py` field by field in declaration order. -/
def decodeActor (j : Json) : Except String Actor := do
  let kvs ← asObj j
  let id ← fieldReqStr "id" (getField kvs "id")
  let tys ← fieldReqStr "type" (getField kvs "type")
  let type ← decodeActorType tys
  let radius ← fieldOptNum (getField kvs "radius")
  let color ← fieldStrD "#ffffff" (getField kvs "color")
  let position ← fieldVecD [0, 0, 0] (getField kvs "position")
  let rotation ← fieldVecD [0, 0, 0] (getField kvs "rotation")
  let scale ← fieldVecD [1, 1, 1] (getField kvs "scale")
  let mass ← fieldOptNum (getField kvs "mass")
  let velocity ← fieldOptVec (getField kvs "velocity")
  let tilt ← fieldOptNum (getField kvs "tilt")
  let orbit_radius ← fieldOptNum (getField kvs "orbit_radius")
  let emissive ← fieldOptStr (getField kvs "emissive")
  let opacity ← fieldOptNumD 1 (getField kvs "opacity")
  let text_content ← fieldOptStr (getField kvs "text_content")
  let font_size ← fieldOptNum (getField kvs "font_size")
  pure ⟨id, type, radius, color, position, rotation, scale, mass, velocity,
        tilt, orbit_radius, emissive, opacity, text_content, font_size⟩

/-- Canonical decode of a `TimelineEvent`. -/
def decodeEvent (j : Json) : Except String TimelineEvent := do
  let kvs ← asObj j
  let time ← fieldReqNum "time" (getField kvs "time")
  let properties ← fieldReqProps "properties" (getField kvs "properties")
  let duration ← fieldOptNumD 1 (getField kvs "duration")
  let easing ← fieldStrD "linear" (getField kvs "easing")
  pure ⟨time, properties, duration, easing⟩

/-- Canonical decode of an ` Annotation`. -/
def decodeAnn (j : Json) : Except String Annotation := do
  let kvs ← asObj j
  let time ← fieldReqNum "time" (getField kvs "time")
  let text ← fieldReqStr "text" (getField kvs "text")
  let position ← fieldOptVec (getField kvs "position")
  let duration ← fieldOptNumD 3 (getField kvs "duration")
  let style ← fieldOptStrMap (getField kvs "style")
  pure ⟨time, text, position, duration, style⟩

/-- Canonical decode of `CameraSettings`. -/
def decodeCamera (j : Json) : Except String CameraSettings := do
  let kvs ← asObj j
  let position ← fieldVecD [0, 0, 10] (getField kvs "position")
  let target ← fieldVecD [0, 0, 0] (getField kvs "target")
  let fov ← fieldNumD 75 (getField kvs "fov")
  let follow_actor ← fieldOptStr (getField kvs "follow_actor")
  pure ⟨position, target, fov, follow_actor⟩

/-- Model of `Optional[CameraSettings] = None` field. -/
def fieldOptCamera : Option Json → Except String (Option CameraSettings)
  | none => Except.ok none
  | some .null => Except.ok none
  | some v => Except.map some (decodeCamera v)

/-- Canonical decode of the root `AnimationInstructions` model: the pydantic
validation run by `AnimationInstructions(**data)` in `query_mcp`, over raw
decoded JSON. Extra keys are ignored; every documented default is applied. -/
def decodeInstructions (j : Json) : Except String AnimationInstructions := do
  let kvs ← asObj j
  let scenes ← fieldReqStr "scene" (getField kvs "scene")
  let scene ← decodeSceneType scenes
  let actorsJ ← fieldReq "actors" (getField kvs "actors")
  let actorsL ← asArr actorsJ
  let actors ← mapEx decodeActor actorsL
  let timelineJ ← fieldReq "timeline" (getField kvs "timeline")
  let timelineL ← asArr timelineJ
  let timeline ← mapEx decodeEvent timelineL
  let annJ ← fieldReq "annotations" (getField kvs "annotations")
  let annL ← asArr annJ
  let annotations ← mapEx decodeAnn annL
  let camera ← fieldOptCamera (getField kvs "camera")
  let duration ← fieldNumD 10 (getField kvs "duration")
  let loop ← fieldBoolD true (getField kvs "loop")
  pure ⟨scene, actors, timeline, annotations, camera, duration, loop⟩

/-! ### Encoding (`model_dump_json`, JSON-tree half)

`model_dump_json` serializes every declared field in declaration order;
`None` becomes `null`. -/

def encodeOptNum : Option Rat → Json
  | none => Json.null
  | some q => Json.num q

def encodeVec (xs : List Rat) : Json := Json.arr (xs.map Json.num)

def encodeOptVec : Option (List Rat) → Json
  | none => Json.null
  | some xs => encodeVec xs

def encodeOptStr : Option String → Json
  | none => Json.null
  | some s => Json.str s

def encodeOptStrMap : Option (List (String × String)) → Json
  | none => Json.null
  | some m => Json.obj (m.map (fun kv => (kv.1, Json.str kv.2)))

def encodeActor (a : Actor) : Json :=
  Json.obj
    [("id", Json.str a.id),
     ("type", Json.str (actorTypeToString a.type)),
     ("radius", encodeOptNum a.radius),
     ("color", Json.str a.color),
     ("position", encodeVec a.position),
     ("rotation", encodeVec a.rotation),
     ("scale", encodeVec a.scale),
     ("mass", encodeOptNum a.mass),
     ("velocity", encodeOptVec a.velocity),
     ("tilt", encodeOptNum a.tilt),
     ("orbit_radius", encodeOptNum a.orbit_radius),
     ("emissive", encodeOptStr a.emissive),
     ("opacity", encodeOptNum a.opacity),
     ("text_content", encodeOptStr a.text_content),
     ("font_size", encodeOptNum a.font_size)]

def encodeEvent (e : TimelineEvent) : Json :=
  Json.obj
    [("time", Json.num e.time),
     ("properties", Json.obj e.properties),
     ("duration", encodeOptNum e.duration),
     ("easing", Json.str e.easing)]

def encodeAnn (n : Annotation) : Json :=
  Json.obj
    [("time", Json.num n.time),
     ("text", Json.str n.text),
     ("position", encodeOptVec n.position),
     ("duration", encodeOptNum n.duration),
     ("style", encodeOptStrMap n.style)]

def encodeCamera (c : CameraSettings) : Json :=
  Json.obj
    [("position", encodeVec c.position),
     ("target", encodeVec c.target),
     ("fov", Json.num c.fov),
     ("follow_actor", encodeOptStr c.follow_actor)]

def encodeOptCamera : Option CameraSettings → Json
  | none => Json.null
  | some c => encodeCamera c

def encodeInstructions (i : AnimationInstructions) : Json :=
  Json.obj
    [("scene", Json.str (sceneTypeToString i.scene)),
     ("actors", Json.arr (i.actors.map encodeActor)),
     ("timeline", Json.arr (i.timeline.map encodeEvent)),
     ("annotations", Json.arr (i.annotations.map encodeAnn)),
     ("camera", encodeOptCamera i.camera),
     ("duration", Json.num i.duration),
     ("loop", Json.bool i.loop)]

/-! ### Mock/fallback reply selection (`LLMIntegrator._mock_response`)

The keyword rule list and the five canned replies, verbatim from
`llm_integration.py`. Matching lowercases the query and tests substring
containment (Python `word in query_lower`). -/

/-- Python `str.lower()` on the ASCII query strings used here. -/
def strToLower (s : String) : String := ⟨s.data.map Char.toLower⟩

/-- Substring containment on character lists. -/
def isSub : List Char → List Char → Bool
  | needle, [] => List.isPrefixOf needle []
  | needle, c :: t => List.isPrefixOf needle (c :: t) || isSub needle t

/-- Python `needle in hay` for strings. -/
def subStr (needle hay : String) : Bool := isSub needle.data hay.data

/-- Model of `any(word in lowered for word in kws)`. -/
def anyKeyword (kws : List String) (lowered : String) : Bool :=
  kws.any (fun w => subStr w lowered)

def solarKeywords : List String := ["season", "earth", "sun", "orbit", "tilt"]

def photosynthesisKeywords : List String :=
  ["photosynthesis", "plant", "chlorophyll", "oxygen", "carbon dioxide"]

def circuitKeywords : List String :=
  ["circuit", "electric", "current", "voltage", "resistance", "electron"]

def waveKeywords : List String :=
  ["wave", "interference", "frequency", "amplitude", "oscillation"]

/-- One mock reply: the `text` explanation and the raw
`animation_instructions` dictionary. -/
structure LLMReply where
  text : String
  animation_instructions : List (String × Json)

/-- The seasons/solar-system mock reply. -/
def solarReply : LLMReply :=
  ⟨"The Earth has seasons because its rotational axis is tilted 23.5 degrees relative to its orbital plane around the Sun. This tilt means that as Earth orbits the Sun throughout the year, different parts of the planet receive varying amounts of direct sunlight. When the Northern Hemisphere is tilted toward the Sun, it experiences summer with longer days and more direct sunlight, while the Southern Hemisphere experiences winter. Six months later, the situation reverses.",
[
  ("scene_type",
   Json.str "solar_system"),
  ("actors",
   Json.arr [
      Json.str "earth",
      Json.str "sun",
      Json.str "orbit_path"
    ]),
  ("parameters",
   Json.obj [
      ("earth_tilt", Json.num 23.5),
      ("orbit_radius", Json.num 4),
      ("animation_speed", Json.num 0.015),
      ("show_seasons", Json.bool true),
      ("earth_rotation_speed", Json.num 0.05)
    ]),
  ("timeline",
   Json.arr [
      Json.obj [
        ("time", Json.num 0),
        ("action", Json.str "start_orbit"),
        ("earth_position", Json.str "summer_solstice")
      ],
      Json.obj [
        ("time", Json.num 1),
        ("action", Json.str "continue_orbit"),
        ("earth_position", Json.str "autumn_equinox")
      ],
      Json.obj [
        ("time", Json.num 2),
        ("action", Json.str "continue_orbit"),
        ("earth_position", Json.str "winter_solstice")
      ],
      Json.obj [
        ("time", Json.num 3),
        ("action", Json.str "continue_orbit"),
        ("earth_position", Json.str "spring_equinox")
      ]
    ]),
  ("annotations",
   Json.arr [
      Json.obj [
        ("time", Json.num 0),
        ("text", Json.str "Summer: Northern hemisphere tilted toward Sun")
      ],
      Json.obj [
        ("time", Json.num 1),
        ("text", Json.str "Autumn: Equal day/night length")
      ],
      Json.obj [
        ("time", Json.num 2),
        ("text", Json.str "Winter: Northern hemisphere tilted away from Sun")
      ],
      Json.obj [
        ("time", Json.num 3),
        ("text", Json.str "Spring: Equal day/night length again")
      ]
    ])
]⟩

/-- The photosynthesis mock reply. -/
def photosynthesisReply : LLMReply :=
  ⟨"Photosynthesis is the process by which plants convert light energy, carbon dioxide, and water into glucose and oxygen. This occurs primarily in the leaves, where chlorophyll captures sunlight. The chemical equation is: 6CO₂ + 6H₂O + light energy → C₆H₁₂O₆ + 6O₂. This process is essential for life on Earth as it produces the oxygen we breathe and forms the base of most food chains.",
[
  ("scene_type",
   Json.str "photosynthesis"),
  ("actors",
   Json.arr [
      Json.str "plant",
      Json.str "sun",
      Json.str "co2_molecules",
      Json.str "h2o_molecules",
      Json.str "o2_molecules",
      Json.str "glucose"
    ]),
  ("parameters",
   Json.obj [
      ("plant_type", Json.str "generic_plant"),
      ("light_intensity", Json.num 80),
      ("co2_flow_rate", Json.num 10),
      ("o2_production_rate", Json.num 6),
      ("animation_duration", Json.num 10)
    ]),
  ("timeline",
   Json.arr [
      Json.obj [
        ("time", Json.num 0),
        ("action", Json.str "sunlight_hits_leaves"),
        ("intensity", Json.num 100)
      ],
      Json.obj [
        ("time", Json.num 1),
        ("action", Json.str "co2_enters_stomata"),
        ("rate", Json.num 10)
      ],
      Json.obj [
        ("time", Json.num 2),
        ("action", Json.str "water_absorbed_by_roots"),
        ("rate", Json.num 8)
      ],
      Json.obj [
        ("time", Json.num 3),
        ("action", Json.str "glucose_production"),
        ("amount", Json.num 1)
      ],
      Json.obj [
        ("time", Json.num 4),
        ("action", Json.str "oxygen_release"),
        ("amount", Json.num 6)
      ]
    ]),
  ("annotations",
   Json.arr [
      Json.obj [
        ("time", Json.num 0),
        ("text", Json.str "Sunlight provides energy for the process")
      ],
      Json.obj [
        ("time", Json.num 1),
        ("text", Json.str "CO₂ enters through leaf pores (stomata)")
      ],
      Json.obj [
        ("time", Json.num 2),
        ("text", Json.str "Water travels from roots to leaves")
      ],
      Json.obj [
        ("time", Json.num 3),
        ("text", Json.str "Glucose (sugar) is produced for plant energy")
      ],
      Json.obj [
        ("time", Json.num 4),
        ("text", Json.str "Oxygen is released as a byproduct")
      ]
    ])
]⟩

/-- The electric-circuit mock reply. -/
def circuitReply : LLMReply :=
  ⟨"An electric circuit is a closed path through which electric current can flow. Current consists of moving electrons that flow from the negative terminal of a power source (like a battery) through the circuit components and back to the positive terminal. The flow of current is governed by Ohm\x27s Law: V = I × R, where voltage (V) equals current (I) times resistance (R).",
[
  ("scene_type",
   Json.str "circuit"),
  ("actors",
   Json.arr [
      Json.str "battery",
      Json.str "resistor",
      Json.str "led",
      Json.str "wires",
      Json.str "electrons"
    ]),
  ("parameters",
   Json.obj [
      ("voltage", Json.num 9),
      ("resistance", Json.num 470),
      ("current", Json.num 0.019),
      ("electron_speed", Json.num 2),
      ("show_electron_flow", Json.bool true)
    ]),
  ("timeline",
   Json.arr [
      Json.obj [
        ("time", Json.num 0),
        ("action", Json.str "electrons_leave_battery"),
        ("current", Json.num 0.019)
      ],
      Json.obj [
        ("time", Json.num 1),
        ("action", Json.str "electrons_through_resistor"),
        ("voltage_drop", Json.num 8.9)
      ],
      Json.obj [
        ("time", Json.num 2),
        ("action", Json.str "electrons_power_led"),
        ("brightness", Json.num 100)
      ],
      Json.obj [
        ("time", Json.num 3),
        ("action", Json.str "electrons_return_battery"),
        ("circuit_complete", Json.bool true)
      ]
    ]),
  ("annotations",
   Json.arr [
      Json.obj [
        ("time", Json.num 0),
        ("text", Json.str "Electrons flow from battery\x27s negative terminal")
      ],
      Json.obj [
        ("time", Json.num 1),
        ("text", Json.str "Resistor limits current flow, voltage drops")
      ],
      Json.obj [
        ("time", Json.num 2),
        ("text", Json.str "LED converts electrical energy to light")
      ],
      Json.obj [
        ("time", Json.num 3),
        ("text", Json.str "Electrons complete the circuit back to battery")
      ]
    ])
]⟩

/-- The wave-interference mock reply. -/
def waveReply : LLMReply :=
  ⟨"Wave interference occurs when two or more waves meet and combine. When wave peaks align (constructive interference), they create larger amplitudes. When peaks meet troughs (destructive interference), they can cancel out. This principle explains many phenomena including sound acoustics, light patterns, and water wave behavior.",
[
  ("scene_type",
   Json.str "wave_interference"),
  ("actors",
   Json.arr [
      Json.str "wave_source_1",
      Json.str "wave_source_2",
      Json.str "interference_pattern"
    ]),
  ("parameters",
   Json.obj [
      ("frequency1", Json.num 0.02),
      ("frequency2", Json.num 0.02),
      ("amplitude1", Json.num 50),
      ("amplitude2", Json.num 50),
      ("wave_speed", Json.num 100),
      ("medium", Json.str "water")
    ]),
  ("timeline",
   Json.arr [
      Json.obj [
        ("time", Json.num 0),
        ("action", Json.str "generate_waves"),
        ("sources", Json.num 2)
      ],
      Json.obj [
        ("time", Json.num 1),
        ("action", Json.str "waves_propagate"),
        ("distance", Json.num 100)
      ],
      Json.obj [
        ("time", Json.num 2),
        ("action", Json.str "constructive_interference"),
        ("amplitude", Json.num 100)
      ],
      Json.obj [
        ("time", Json.num 3),
        ("action", Json.str "destructive_interference"),
        ("amplitude", Json.num 0)
      ]
    ]),
  ("annotations",
   Json.arr [
      Json.obj [
        ("time", Json.num 0),
        ("text", Json.str "Two wave sources generate identical waves")
      ],
      Json.obj [
        ("time", Json.num 1),
        ("text", Json.str "Waves spread outward in concentric circles")
      ],
      Json.obj [
        ("time", Json.num 2),
        ("text", Json.str "Constructive interference: waves add together")
      ],
      Json.obj [
        ("time", Json.num 3),
        ("text", Json.str "Destructive interference: waves cancel out")
      ]
    ])
]⟩

/-- The raw instruction dictionary of the default (custom-scene) mock reply. -/
def customInstr : List (String × Json) :=
[
  ("scene_type",
   Json.str "custom"),
  ("actors",
   Json.arr [
      Json.str "generic_object"
    ]),
  ("parameters",
   Json.obj [
      ("animation_type", Json.str "basic"),
      ("duration", Json.num 5)
    ]),
  ("timeline",
   Json.arr [
      Json.obj [
        ("time", Json.num 0),
        ("action", Json.str "initialize"),
        ("state", Json.str "start")
      ],
      Json.obj [
        ("time", Json.num 1),
        ("action", Json.str "demonstrate"),
        ("state", Json.str "active")
      ]
    ]),
  ("annotations",
   Json.arr [
      Json.obj [
        ("time", Json.num 0),
        ("text", Json.str "Starting demonstration")
      ],
      Json.obj [
        ("time", Json.num 1),
        ("text", Json.str "Showing key concepts")
      ]
    ])
]

/-- The default mock reply; its text interpolates the query. -/
def defaultReply (query : String) : LLMReply :=
  ⟨"This is an explanation for: " ++ query ++
     ". The system would analyze this topic and provide relevant scientific information with appropriate visualizations.",
   customInstr⟩

/-- Model of `LLMIntegrator._mock_response`: the if/elif keyword dispatch, in source
order. -/
def mockResponse (query : String) : LLMReply :=
  if anyKeyword solarKeywords (strToLower query) then solarReply
  else if anyKeyword photosynthesisKeywords (strToLower query) then photosynthesisReply
  else if anyKeyword circuitKeywords (strToLower query) then circuitReply
  else if anyKeyword waveKeywords (strToLower query) then waveReply
  else defaultReply query

/-- The mock dispatch presented as an ordered rule list, for comparison with
`mockResponse`: this definition follows the specification wording (an ordered
rule list in which the first matching keyword set wins, tried against the
lowercased query, with the custom scene as final default). -/
def firstMatchingRule : List (List String × LLMReply) → (String → LLMReply) → String → LLMReply
  | [], dflt, query => dflt query
  | (kws, reply) :: rest, dflt, query =>
      if anyKeyword kws (strToLower query) then reply
      else firstMatchingRule rest dflt query

/-- The rule list of `mockResponse`, in source order. -/
def mockRules : List (List String × LLMReply) :=
  [(solarKeywords, solarReply),
   (photosynthesisKeywords, photosynthesisReply),
   (circuitKeywords, circuitReply),
   (waveKeywords, waveReply)]

/-- Model of `LLMIntegrator.validate_animation_instructions`: its `required_fields`. -/
def required_fields : List String :=
  ["scene_type", "actors", "parameters", "timeline", "annotations"]

/-- Model of `LLMIntegrator.validate_animation_instructions`: true iff every required
field name is a key of the dictionary. -/
def validate_animation_instructions (instructions : List (String × Json)) : Bool :=
  required_fields.all (fun field => (getField instructions field).isSome)

/-! ### JSON text rendering (`model_dump_json`, text half) -/

/-- Decimal digits of the fractional part `rem/den`, with enough fuel for the
finite decimals that occur in instruction documents. -/
def fracDigits : Nat → Nat → Nat → String
  | 0, _, _ => ""
  | _ + 1, 0, _ => ""
  | fuel + 1, rem, den =>
      toString (rem * 10 / den) ++ fracDigits fuel (rem * 10 % den) den

/-- Python `float` JSON rendering (always with a decimal point). -/
def renderNum (q : Rat) : String :=
  let sign := if q.num < 0 then "-" else ""
  let n := q.num.natAbs
  let d := q.den
  let frac := fracDigits 17 (n % d) d
  sign ++ toString (n / d) ++ "." ++ (if frac = "" then "0" else frac)

/-- JSON string escaping for one character. -/
def escapeChar (c : Char) : String :=
  if c = Char.ofNat 34 then "\\\""
  else if c = Char.ofNat 92 then "\\\\"
  else if c = Char.ofNat 10 then "\\n"
  else if c = Char.ofNat 13 then "\\r"
  else if c = Char.ofNat 9 then "\\t"
  else String.singleton c

/-- A JSON string literal. -/
def renderString (s : String) : String :=
  "\"" ++ String.join (s.data.map escapeChar) ++ "\""

/-- Compact JSON serialization of a document tree. -/
def renderJson : Json → String
  | Json.null => "null"
  | Json.bool b => cond b "true" "false"
  | Json.num q => renderNum q
  | Json.str s => renderString s
  | Json.arr xs =>
      "[" ++ String.intercalate "," (xs.attach.map (fun x => renderJson x.1)) ++ "]"
  | Json.obj kvs =>
      "\x7b" ++
        String.intercalate ","
          (kvs.attach.map (fun kv => renderString kv.1.1 ++ ":" ++ renderJson kv.1.2)) ++
        "\x7d"
termination_by j => sizeOf j
decreasing_by
  · have h1 := List.sizeOf_lt_of_mem x.2
    simp only [Json.arr.sizeOf_spec]
    omega
  · have h1 := List.sizeOf_lt_of_mem kv.2
    have h2 : sizeOf kv.1.2 < sizeOf kv.1 := by
      obtain ⟨a, b⟩ := kv.1
      simp only [Prod.mk.sizeOf_spec]
      omega
    simp only [Json.obj.sizeOf_spec]
    omega

/-! ### The animation compiler (`mcp_server.py`)

`AnimationCompiler._get_animation_engine_code` opens the file
`animation_engine.js` at compile time and falls back to the embedded engine
when the file is absent. The ambient process state it can observe is modelled
explicitly: the current content of that file, and the wall clock (the module
imports `datetime`; the compiler never consults it). -/

structure ServerEnv where
  engineFile : Option String
  now : Nat

/-- Model of `AnimationCompiler._get_fallback_animation_engine`. -/
def getFallbackAnimationEngine : String :=
    "\n        function createAnimationFromJSON(data, containerId) \x7b\n" ++
    "            console.log(\x27Using fallback animation engine\x27);\n" ++
    "            const container = document.getElementById(containerId);\n            \n" ++
    "            // Create basic Three.js scene\n            const scene = new THREE.Scene();\n" ++
    "            const camera = new THREE.PerspectiveCamera(75, 800/600, 0.1, 1000);\n" ++
    "            const renderer = new THREE.WebGLRenderer(\x7b antialias: true \x7d);\n" ++
    "            renderer.setSize(800, 600);\n            container.innerHTML = \x27\x27;\n" ++
    "            container.appendChild(renderer.domElement);\n            \n" ++
    "            // Basic lighting\n" ++
    "            const light = new THREE.AmbientLight(0x404040);\n" ++
    "            scene.add(light);\n" ++
    "            const dirLight = new THREE.DirectionalLight(0xffffff, 0.5);\n" ++
    "            dirLight.position.set(5, 5, 5);\n            scene.add(dirLight);\n" ++
    "            \n            // Create basic actors\n            const actors = \x7b\x7d;\n" ++
    "            data.actors.forEach(actor => \x7b\n                let mesh;\n" ++
    "                if (actor.type === \x27sphere\x27) \x7b\n" ++
    "                    const geo = new THREE.SphereGeometry(actor.radius || 0.5, 16, 16);\n" ++
    "                    const mat = new THREE.MeshLambertMaterial(\x7b color: actor.color || \x27#ffffff\x27 \x7d);\n" ++
    "                    mesh = new THREE.Mesh(geo, mat);\n                \x7d else \x7b\n" ++
    "                    const geo = new THREE.BoxGeometry(1, 1, 1);\n" ++
    "                    const mat = new THREE.MeshLambertMaterial(\x7b color: actor.color || \x27#ffffff\x27 \x7d);\n" ++
    "                    mesh = new THREE.Mesh(geo, mat);\n                \x7d\n" ++
    "                mesh.position.set(...(actor.position || [0, 0, 0]));\n" ++
    "                scene.add(mesh);\n                actors[actor.id] = mesh;\n" ++
    "            \x7d);\n            \n            camera.position.set(5, 5, 5);\n" ++
    "            camera.lookAt(0, 0, 0);\n            \n            // Simple animation loop\n" ++
    "            let time = 0;\n            function animate() \x7b\n" ++
    "                requestAnimationFrame(animate);\n                time += 0.016;\n" ++
    "                \n                // Basic orbit for solar system\n" ++
    "                if (data.scene === \x27solar_system\x27 && actors.earth) \x7b\n" ++
    "                    actors.earth.position.x = Math.cos(time) * 3;\n" ++
    "                    actors.earth.position.z = Math.sin(time) * 3;\n" ++
    "                    actors.earth.rotation.y += 0.05;\n                \x7d\n" ++
    "                \n                renderer.render(scene, camera);\n            \x7d\n" ++
    "            \n            return \x7b\n                play: animate,\n" ++
    "                pause: () => \x7b\x7d,\n                currentTime: 0\n" ++
    "            \x7d;\n        \x7d\n        "

/-- Model of `AnimationCompiler._get_animation_engine_code`. -/
def getAnimationEngineCode (env : ServerEnv) : String :=
  match env.engineFile with
  | some code => code
  | none => getFallbackAnimationEngine

/-- Model of `AnimationCompiler.compile_animation`: serializes the instruction document
and splices it, the engine code, the scene name and the duration into the
HTML page template. -/
def compileAnimation (env : ServerEnv) (i : AnimationInstructions) : String :=
  let animation_json := renderJson (encodeInstructions i)
  "\n        <!DOCTYPE html>\n        <html>\n        <head>\n" ++
    "            <title>Visual Explanation</title>\n            <style>\n" ++
    "                body \x7b margin: 0; padding: 20px; font-family: Arial, sans-serif; \x7d\n" ++
    "                #animation-container \x7b \n                    position: relative;\n" ++
    "                    border: 1px solid #ccc; \n                    width: 800px;\n" ++
    "                    height: 600px;\n                    background: #f8f8f8;\n" ++
    "                \x7d\n                .animation-annotation \x7b\n" ++
    "                    position: absolute;\n" ++
    "                    background: rgba(0,0,0,0.8);\n                    color: white;\n" ++
    "                    padding: 10px;\n                    border-radius: 5px;\n" ++
    "                    font-size: 14px;\n                    max-width: 300px;\n" ++
    "                    z-index: 100;\n                \x7d\n                .controls \x7b\n" ++
    "                    margin-top: 10px;\n                \x7d\n" ++
    "                .controls button \x7b\n                    margin-right: 10px;\n" ++
    "                    padding: 8px 16px;\n                    background: #007cba;\n" ++
    "                    color: white;\n                    border: none;\n" ++
    "                    border-radius: 4px;\n                    cursor: pointer;\n" ++
    "                    font-size: 14px;\n                \x7d\n" ++
    "                .controls button:hover \x7b\n                    background: #005a8b;\n" ++
    "                \x7d\n                .info \x7b\n                    margin-top: 10px;\n" ++
    "                    padding: 10px;\n                    background: #e3f2fd;\n" ++
    "                    border-radius: 4px;\n                    font-size: 14px;\n" ++
    "                \x7d\n            </style>\n" ++
    "            <script src=\"https://cdn.jsdelivr.net/npm/three@0.152.2/build/three.min.js\"></script>\n" ++
    "        </head>\n        <body>\n            <div id=\"animation-container\">\n" ++
    "                <div style=\"padding: 20px; text-align: center;\">\n" ++
    "                    <p>Loading animation...</p>\n                </div>\n" ++
    "            </div>\n            <div class=\"controls\">\n" ++
    "                <button onclick=\"window.animationEngine && window.animationEngine.play()\">▶ Play</button>\n" ++
    "                <button onclick=\"window.animationEngine && window.animationEngine.pause()\">⏸ Pause</button>\n" ++
    "                <button onclick=\"restartAnimation()\">🔄 Restart</button>\n" ++
    "            </div>\n            <div class=\"info\">\n" ++
    "                🎬 Interactive Animation • Scene: " ++
    sceneTypeToString i.scene ++
    " • Duration: " ++
    renderNum i.duration ++
    "s\n            </div>\n            \n            <script>\n" ++
    "                // Universal Animation Engine (embedded)\n                " ++
    getAnimationEngineCode env ++
    "\n                \n                // Animation data from AI\n" ++
    "                const animationData = " ++
    animation_json ++
    ";\n                \n                function restartAnimation() \x7b\n" ++
    "                    if (window.animationEngine) \x7b\n" ++
    "                        window.animationEngine.currentTime = 0;\n" ++
    "                        window.animationEngine.play();\n                    \x7d\n" ++
    "                \x7d\n                \n" ++
    "                // Initialize and start animation\n" ++
    "                function initializeAnimation() \x7b\n                    try \x7b\n" ++
    "                        window.animationEngine = createAnimationFromJSON(animationData, \x27animation-container\x27);\n" ++
    "                        console.log(\x27Animation initialized successfully\x27);\n" ++
    "                    \x7d catch (error) \x7b\n" ++
    "                        console.error(\x27Animation initialization failed:\x27, error);\n" ++
    "                        document.getElementById(\x27animation-container\x27).innerHTML = \n" ++
    "                            \x27<div style=\"padding: 20px; text-align: center; color: #666;\">Animation could not be loaded. Please refresh to try again.</div>\x27;\n" ++
    "                    \x7d\n                \x7d\n                \n" ++
    "                // Start when ready\n" ++
    "                document.addEventListener(\x27DOMContentLoaded\x27, initializeAnimation);\n" ++
    "                \n                if (document.readyState !== \x27loading\x27) \x7b\n" ++
    "                    initializeAnimation();\n                \x7d\n            </script>\n" ++
    "        </body>\n        </html>\n        "

/-! ### The `/query` endpoint (`query_mcp`) -/

/-- Model of `generate_llm_response` on the path exercised when no real provider is
reachable: `generate_response` falls through to `_mock_response` (the
configured Anthropic call fails without credentials and is caught). -/
def generateLlmResponse (query : String) : LLMReply := mockResponse query

/-- Model of `MCPResponse` from `mcp_server.py`. -/
structure MCPResponse where
  text_response : String
  animation_instructions : Option AnimationInstructions
  html_animation : Option String

/-- Model of `query_mcp`: build the text response; if the reply carries a (truthy,
i.e. non-empty) instruction dictionary, validate it as
`AnimationInstructions` and compile it, and on any validation failure fall
back to the text-only response. -/
def queryMcp (env : ServerEnv) (content : String) : MCPResponse :=
  let llm_response := generateLlmResponse content
  if llm_response.animation_instructions.isEmpty then
    ⟨llm_response.text, none, none⟩
  else
    match decodeInstructions (Json.obj llm_response.animation_instructions) with
    | Except.ok instructions =>
        ⟨llm_response.text, some instructions, some (compileAnimation env instructions)⟩
    | Except.error _ => ⟨llm_response.text, none, none⟩

/-! ### Statement apparatus and sample documents -/

/-- The `time` field of a serialized timeline entry. -/
def timeOfJson : Json → Option Rat
  | Json.obj kvs =>
      match getField kvs "time" with
      | some (Json.num q) => some q
      | _ => none
  | _ => none

/-- The start times of the timeline entries embedded in a serialized
instruction document. -/
def jsonTimelineTimes : Json → List Rat
  | Json.obj kvs =>
      match getField kvs "timeline" with
      | some (Json.arr xs) => xs.filterMap timeOfJson
      | _ => []
  | _ => []

/-- Non-decreasing test for a list of start times. -/
def nondecr : List Rat → Bool
  | [] => true
  | [_] => true
  | a :: b :: t => decide (a ≤ b) && nondecr (b :: t)

/-- The actor ids found in the `actors` entry of a raw instruction
dictionary. -/
def actorIdsOf (d : List (String × Json)) : List String :=
  match getField d "actors" with
  | some (Json.arr xs) =>
      xs.filterMap (fun a =>
        match a with
        | Json.obj kvs =>
            match getField kvs "id" with
            | some (Json.str s) => some s
            | _ => none
        | _ => none)
  | _ => []

/-- A timeline event at t = 2 (appears first in `unsortedDoc`). -/
def evLate : TimelineEvent := ⟨2, [("phase", Json.str "b")], some 1, "linear"⟩

/-- A timeline event at t = 1 (appears second in `unsortedDoc`). -/
def evEarly : TimelineEvent := ⟨1, [("phase", Json.str "a")], some 1, "linear"⟩

/-- A validated document whose timeline is not sorted by start time. -/
def unsortedDoc : AnimationInstructions :=
  ⟨SceneType.CUSTOM, [], [evLate, evEarly], [], none, 10, true⟩

/-- A minimal validated document. -/
def sampleDoc : AnimationInstructions :=
  ⟨SceneType.CUSTOM, [], [], [], none, 10, true⟩

/-- A raw actor object with id "a". -/
def dupActorJson : Json := Json.obj [("id", Json.str "a"), ("type", Json.str "sphere")]

/-- A raw instruction dictionary whose two actors share the id "a", with all
five required keys present. -/
def dupIdDoc : List (String × Json) :=
  [("scene_type", Json.str "custom"),
   ("actors", Json.arr [dupActorJson, dupActorJson]),
   ("parameters", Json.obj []),
   ("timeline", Json.arr []),
   ("annotations", Json.arr [])]

/-- A raw actor object carrying only the required fields. -/
def minActorJson : Json := Json.obj [("id", Json.str "a"), ("type", Json.str "sphere")]

/-- The decode of `minActorJson`: every omitted field takes its declared
default. -/
def minActor : Actor :=
  ⟨"a", ActorType.SPHERE, none, "#ffffff", [0, 0, 0], [0, 0, 0], [1, 1, 1],
   none, none, none, none, none, some 1, none, none⟩

/-- A raw timeline event carrying only the required fields. -/
def minEventJson : Json := Json.obj [("time", Json.num 0), ("properties", Json.obj [])]

/-- A raw annotation carrying only the required fields. -/
def minAnnJson : Json := Json.obj [("time", Json.num 0), ("text", Json.str "t")]

/-- A raw root document carrying only the required fields. -/
def minRootJson : Json :=
  Json.obj
    [("scene", Json.str "custom"),
     ("actors", Json.arr []),
     ("timeline", Json.arr []),
     ("annotations", Json.arr [])]

/-- A raw root document that decodes successfully with one actor. -/
def goodDocJson : Json :=
  Json.obj
    [("scene", Json.str "solar_system"),
     ("actors", Json.arr [minActorJson]),
     ("timeline", Json.arr []),
     ("annotations", Json.arr [])]

/-- The decode of `goodDocJson`. -/
def goodDoc : AnimationInstructions :=
  ⟨SceneType.SOLAR_SYSTEM, [minActor], [], [], none, 10, true⟩

/-! ### Monad plumbing and round-trip lemmas -/

theorem ok_bind {ε α β : Type} (a : α) (f : α → Except ε β) :
    (Except.ok a >>= f) = f a := rfl

theorem pure_eq_ok {ε α : Type} (a : α) : (pure a : Except ε α) = Except.ok a := rfl

theorem bind_eq_ok {ε α β : Type} {x : Except ε α} {f : α → Except ε β} {b : β}
    (h : x >>= f = Except.ok b) : ∃ a, x = Except.ok a ∧ f a = Except.ok b := by
  cases x with
  | error e => exact absurd h (by simp [Bind.bind, Except.bind])
  | ok a => exact ⟨a, rfl, h⟩

@[simp] theorem mapEx_map_ok {α β : Type} (f : α → Except String β) (g : β → α)
    (l : List β) (h : ∀ b, f (g b) = Except.ok b) :
    mapEx f (l.map g) = Except.ok l := by
  induction l with
  | nil => rfl
  | cons x t ih => simp [mapEx, h, ih, ok_bind, pure_eq_ok]

@[simp] theorem asNumList_encodeVec (xs : List Rat) :
    asNumList (encodeVec xs) = Except.ok xs := by
  simp [asNumList, encodeVec, asArr, ok_bind, mapEx_map_ok asNum Json.num xs (fun b => rfl)]

@[simp] theorem fieldOptNum_enc (r : Option Rat) :
    fieldOptNum (some (encodeOptNum r)) = Except.ok r := by
  cases r <;> rfl

@[simp] theorem fieldOptNumD_enc (d : Rat) (r : Option Rat) :
    fieldOptNumD d (some (encodeOptNum r)) = Except.ok r := by
  cases r <;> rfl

@[simp] theorem fieldStrD_enc (d s : String) :
    fieldStrD d (some (Json.str s)) = Except.ok s := rfl

@[simp] theorem fieldVecD_enc (d xs : List Rat) :
    fieldVecD d (some (encodeVec xs)) = Except.ok xs := by
  have h : fieldVecD d (some (encodeVec xs)) = asNumList (encodeVec xs) := rfl
  rw [h, asNumList_encodeVec]

@[simp] theorem fieldOptVec_enc (o : Option (List Rat)) :
    fieldOptVec (some (encodeOptVec o)) = Except.ok o := by
  cases o with
  | none => rfl
  | some xs =>
      have h : fieldOptVec (some (encodeOptVec (some xs))) =
          Except.map some (asNumList (encodeVec xs)) := rfl
      rw [h, asNumList_encodeVec]
      rfl

@[simp] theorem fieldOptStr_enc (o : Option String) :
    fieldOptStr (some (encodeOptStr o)) = Except.ok o := by
  cases o <;> rfl

@[simp] theorem fieldNumD_enc (d q : Rat) :
    fieldNumD d (some (Json.num q)) = Except.ok q := rfl

@[simp] theorem fieldBoolD_enc (d b : Bool) :
    fieldBoolD d (some (Json.bool b)) = Except.ok b := rfl

@[simp] theorem fieldReqStr_enc (key s : String) :
    fieldReqStr key (some (Json.str s)) = Except.ok s := rfl

@[simp] theorem fieldReqNum_enc (key : String) (q : Rat) :
    fieldReqNum key (some (Json.num q)) = Except.ok q := rfl

@[simp] theorem fieldReqProps_enc (key : String) (p : List (String × Json)) :
    fieldReqProps key (some (Json.obj p)) = Except.ok p := rfl

@[simp] theorem fieldReq_enc (key : String) (v : Json) :
    fieldReq key (some v) = Except.ok v := rfl

@[simp] theorem fieldOptStrMap_enc (o : Option (List (String × String))) :
    fieldOptStrMap (some (encodeOptStrMap o)) = Except.ok o := by
  cases o with
  | none => rfl
  | some m =>
      simp [fieldOptStrMap, encodeOptStrMap, asObj, ok_bind, pure_eq_ok,
        mapEx_map_ok asStrPair (fun kv => (kv.1, Json.str kv.2)) m
          (fun b => by simp [asStrPair, asStr, ok_bind, pure_eq_ok])]

@[simp] theorem decodeSceneType_enc (t : SceneType) :
    decodeSceneType (sceneTypeToString t) = Except.ok t := by
  cases t <;> rfl

@[simp] theorem decodeActorType_enc (t : ActorType) :
    decodeActorType (actorTypeToString t) = Except.ok t := by
  cases t <;> rfl

@[simp] theorem decodeActor_encodeActor (a : Actor) :
    decodeActor (encodeActor a) = Except.ok a := by
  simp [decodeActor, encodeActor, asObj, getField, ok_bind, pure_eq_ok]

@[simp] theorem decodeEvent_encodeEvent (e : TimelineEvent) :
    decodeEvent (encodeEvent e) = Except.ok e := by
  simp [decodeEvent, encodeEvent, asObj, getField, ok_bind, pure_eq_ok]

@[simp] theorem decodeAnn_encodeAnn (n : Annotation) :
    decodeAnn (encodeAnn n) = Except.ok n := by
  simp [decodeAnn, encodeAnn, asObj, getField, ok_bind, pure_eq_ok]

@[simp] theorem decodeCamera_encodeCamera (c : CameraSettings) :
    decodeCamera (encodeCamera c) = Except.ok c := by
  simp [decodeCamera, encodeCamera, asObj, getField, ok_bind, pure_eq_ok]

@[simp] theorem fieldOptCamera_enc (o : Option CameraSettings) :
    fieldOptCamera (some (encodeOptCamera o)) = Except.ok o := by
  cases o with
  | none => rfl
  | some c =>
      have h : fieldOptCamera (some (encodeOptCamera (some c))) =
          Except.map some (decodeCamera (encodeCamera c)) := rfl
      rw [h, decodeCamera_encodeCamera]
      rfl

theorem decodeInstructions_encodeInstructions (i : AnimationInstructions) :
    decodeInstructions (encodeInstructions i) = Except.ok i := by
  simp [decodeInstructions, encodeInstructions, asObj, asArr, getField,
    ok_bind, pure_eq_ok,
    mapEx_map_ok decodeActor encodeActor i.actors decodeActor_encodeActor,
    mapEx_map_ok decodeEvent encodeEvent i.timeline decodeEvent_encodeEvent,
    mapEx_map_ok decodeAnn encodeAnn i.annotations decodeAnn_encodeAnn]

/-! ### Inversion lemmas for the field validators -/

theorem asStr_ok {v : Json} {s : String} (h : asStr v = Except.ok s) :
    v = Json.str s := by
  cases v <;> simp_all [asStr]

theorem asArr_ok {v : Json} {xs : List Json} (h : asArr v = Except.ok xs) :
    v = Json.arr xs := by
  cases v <;> simp_all [asArr]

theorem asObj_ok {v : Json} {kvs : List (String × Json)}
    (h : asObj v = Except.ok kvs) : v = Json.obj kvs := by
  cases v <;> simp_all [asObj]

theorem fieldReqStr_ok {key s : String} {o : Option Json}
    (h : fieldReqStr key o = Except.ok s) : o = some (Json.str s) := by
  cases o with
  | none => exact absurd h (by simp [fieldReqStr])
  | some v => exact congrArg some (asStr_ok h)

theorem fieldReq_ok {key : String} {v : Json} {o : Option Json}
    (h : fieldReq key o = Except.ok v) : o = some v := by
  cases o with
  | none => exact absurd h (by simp [fieldReq])
  | some w => simp_all [fieldReq]

theorem decodeSceneType_ok {s : String} {t : SceneType}
    (h : decodeSceneType s = Except.ok t) : parseSceneType s = some t := by
  unfold decodeSceneType at h
  cases hp : parseSceneType s <;> simp_all

theorem decodeActorType_ok {s : String} {t : ActorType}
    (h : decodeActorType s = Except.ok t) : parseActorType s = some t := by
  unfold decodeActorType at h
  cases hp : parseActorType s <;> simp_all

/-! ### Claims -/

/-- Claim C5: for every valid document, decoding its encoding yields the
document back unchanged — every field is reproduced as given (optional fields
through their `null`/default conventions), so defaults are stable across
repeated decodes. -/
theorem c5_decode_encode_roundtrip (i : AnimationInstructions) :
    decodeInstructions (encodeInstructions i) = Except.ok i := by
  simp [decodeInstructions, encodeInstructions, asObj, asArr, getField,
    ok_bind, pure_eq_ok,
    mapEx_map_ok decodeActor encodeActor i.actors decodeActor_encodeActor,
    mapEx_map_ok decodeEvent encodeEvent i.timeline decodeEvent_encodeEvent,
    mapEx_map_ok decodeAnn encodeAnn i.annotations decodeAnn_encodeAnn]

/-- Claim C4: whenever a raw document is accepted by decoding, every
documented default is applied to an absent field: actor `position`/`rotation`
default to `[0,0,0]`, `scale` to `[1,1,1]`, `opacity` to `1.0`; timeline-event
`duration` defaults to `1.0` and `easing` to `"linear"`; annotation `duration`
defaults to `3.0`; root `duration` defaults to `10.0` and `loop` to `true`. -/
theorem c4_documented_defaults :
    (∀ (kvs : List (String × Json)) (a : Actor),
        decodeActor (Json.obj kvs) = Except.ok a →
        (getField kvs "position" = none → a.position = [0, 0, 0]) ∧
        (getField kvs "rotation" = none → a.rotation = [0, 0, 0]) ∧
        (getField kvs "scale" = none → a.scale = [1, 1, 1]) ∧
        (getField kvs "opacity" = none → a.opacity = some 1)) ∧
    (∀ (kvs : List (String × Json)) (e : TimelineEvent),
        decodeEvent (Json.obj kvs) = Except.ok e →
        (getField kvs "duration" = none → e.duration = some 1) ∧
        (getField kvs "easing" = none → e.easing = "linear")) ∧
    (∀ (kvs : List (String × Json)) (n : Annotation),
        decodeAnn (Json.obj kvs) = Except.ok n →
        (getField kvs "duration" = none → n.duration = some 3)) ∧
    (∀ (kvs : List (String × Json)) (i : AnimationInstructions),
        decodeInstructions (Json.obj kvs) = Except.ok i →
        (getField kvs "duration" = none → i.duration = 10) ∧
        (getField kvs "loop" = none → i.loop = true)) := by
  refine ⟨?_, ?_, ?_, ?_⟩
  · intro kvs a h
    simp only [decodeActor, asObj, ok_bind] at h
    obtain ⟨idv, hid, h⟩ := bind_eq_ok h
    obtain ⟨tys, htys, h⟩ := bind_eq_ok h
    obtain ⟨ty, hty, h⟩ := bind_eq_ok h
    obtain ⟨rad, hrad, h⟩ := bind_eq_ok h
    obtain ⟨col, hcol, h⟩ := bind_eq_ok h
    obtain ⟨pos, hpos, h⟩ := bind_eq_ok h
    obtain ⟨rot, hrot, h⟩ := bind_eq_ok h
    obtain ⟨scl, hscl, h⟩ := bind_eq_ok h
    obtain ⟨ms, hms, h⟩ := bind_eq_ok h
    obtain ⟨vel, hvel, h⟩ := bind_eq_ok h
    obtain ⟨tl, htl, h⟩ := bind_eq_ok h
    obtain ⟨orb, horb, h⟩ := bind_eq_ok h
    obtain ⟨emi, hemi, h⟩ := bind_eq_ok h
    obtain ⟨opa, hopa, h⟩ := bind_eq_ok h
    obtain ⟨txt, htxt, h⟩ := bind_eq_ok h
    obtain ⟨fsz, hfsz, h⟩ := bind_eq_ok h
    rw [pure_eq_ok] at h
    injection h with h
    subst h
    refine ⟨fun hn => ?_, fun hn => ?_, fun hn => ?_, fun hn => ?_⟩
    · rw [hn] at hpos
      simp only [fieldVecD] at hpos
      injection hpos with h2
      exact h2.symm
    · rw [hn] at hrot
      simp only [fieldVecD] at hrot
      injection hrot with h2
      exact h2.symm
    · rw [hn] at hscl
      simp only [fieldVecD] at hscl
      injection hscl with h2
      exact h2.symm
    · rw [hn] at hopa
      simp only [fieldOptNumD] at hopa
      injection hopa with h2
      exact h2.symm
  · intro kvs e h
    simp only [decodeEvent, asObj, ok_bind] at h
    obtain ⟨tm, htm, h⟩ := bind_eq_ok h
    obtain ⟨props, hprops, h⟩ := bind_eq_ok h
    obtain ⟨dur, hdur, h⟩ := bind_eq_ok h
    obtain ⟨eas, heas, h⟩ := bind_eq_ok h
    rw [pure_eq_ok] at h
    injection h with h
    subst h
    refine ⟨fun hn => ?_, fun hn => ?_⟩
    · rw [hn] at hdur
      simp only [fieldOptNumD] at hdur
      injection hdur with h2
      exact h2.symm
    · rw [hn] at heas
      simp only [fieldStrD] at heas
      injection heas with h2
      exact h2.symm
  · intro kvs n h
    simp only [decodeAnn, asObj, ok_bind] at h
    obtain ⟨tm, htm, h⟩ := bind_eq_ok h
    obtain ⟨tx, htx, h⟩ := bind_eq_ok h
    obtain ⟨ps, hps, h⟩ := bind_eq_ok h
    obtain ⟨dur, hdur, h⟩ := bind_eq_ok h
    obtain ⟨st, hst, h⟩ := bind_eq_ok h
    rw [pure_eq_ok] at h
    injection h with h
    subst h
    refine fun hn => ?_
    rw [hn] at hdur
    simp only [fieldOptNumD] at hdur
    injection hdur with h2
    exact h2.symm
  · intro kvs i h
    simp only [decodeInstructions, asObj, ok_bind] at h
    obtain ⟨scenes, hscenes, h⟩ := bind_eq_ok h
    obtain ⟨scene, hscene, h⟩ := bind_eq_ok h
    obtain ⟨actorsJ, hactJ, h⟩ := bind_eq_ok h
    obtain ⟨actorsL, hactL, h⟩ := bind_eq_ok h
    obtain ⟨actors, hacts, h⟩ := bind_eq_ok h
    obtain ⟨timelineJ, htlJ, h⟩ := bind_eq_ok h
    obtain ⟨timelineL, htlL, h⟩ := bind_eq_ok h
    obtain ⟨timeline, htl, h⟩ := bind_eq_ok h
    obtain ⟨annJ, hanJ, h⟩ := bind_eq_ok h
    obtain ⟨annL, hanL, h⟩ := bind_eq_ok h
    obtain ⟨anns, hanns, h⟩ := bind_eq_ok h
    obtain ⟨cam, hcam, h⟩ := bind_eq_ok h
    obtain ⟨dur, hdur, h⟩ := bind_eq_ok h
    obtain ⟨lp, hlp, h⟩ := bind_eq_ok h
    rw [pure_eq_ok] at h
    injection h with h
    subst h
    refine ⟨fun hn => ?_, fun hn => ?_⟩
    · rw [hn] at hdur
      simp only [fieldNumD] at hdur
      injection hdur with h2
      exact h2.symm
    · rw [hn] at hlp
      simp only [fieldBoolD] at hlp
      injection hlp with h2
      exact h2.symm

/-- Claim C4 witness: the minimal raw actor (only `id` and `type` present)
decodes, and all four actor defaults are taken. -/
theorem c4_witness :
    decodeActor minActorJson = Except.ok minActor ∧
    minActor.position = [0, 0, 0] ∧ minActor.rotation = [0, 0, 0] ∧
    minActor.scale = [1, 1, 1] ∧ minActor.opacity = some 1 := by
  obtain ⟨h1, h2, h3, h4⟩ :=
    c4_documented_defaults.1 [("id", Json.str "a"), ("type", Json.str "sphere")]
      minActor (by rfl)
  exact ⟨by rfl, h1 rfl, h2 rfl, h3 rfl, h4 rfl⟩

/-- Claim C6: decoding never silently accepts a structurally invalid
document — whenever the canonical decode succeeds, the input was an object
whose required keys were all present with the declared primitive shapes and
whose enumerated fields (`scene` of the root, `type` of each actor) carried
recognized values; on any input it either returns a populated value or a
decode error. -/
theorem c6_decode_soundness :
    (∀ (j : Json) (x : AnimationInstructions),
        decodeInstructions j = Except.ok x →
        ∃ kvs, j = Json.obj kvs ∧
          (∃ s, getField kvs "scene" = some (Json.str s) ∧
            parseSceneType s = some x.scene) ∧
          (∃ xs, getField kvs "actors" = some (Json.arr xs)) ∧
          (∃ ts, getField kvs "timeline" = some (Json.arr ts)) ∧
          (∃ ns, getField kvs "annotations" = some (Json.arr ns))) ∧
    (∀ (j : Json) (a : Actor),
        decodeActor j = Except.ok a →
        ∃ kvs, j = Json.obj kvs ∧
          getField kvs "id" = some (Json.str a.id) ∧
          (∃ s, getField kvs "type" = some (Json.str s) ∧
            parseActorType s = some a.type)) := by
  constructor
  · intro j x h
    simp only [decodeInstructions] at h
    obtain ⟨kvs, hkvs, h⟩ := bind_eq_ok h
    obtain ⟨scenes, hscenes, h⟩ := bind_eq_ok h
    obtain ⟨scene, hscene, h⟩ := bind_eq_ok h
    obtain ⟨actorsJ, hactJ, h⟩ := bind_eq_ok h
    obtain ⟨actorsL, hactL, h⟩ := bind_eq_ok h
    obtain ⟨actors, hacts, h⟩ := bind_eq_ok h
    obtain ⟨timelineJ, htlJ, h⟩ := bind_eq_ok h
    obtain ⟨timelineL, htlL, h⟩ := bind_eq_ok h
    obtain ⟨timeline, htl, h⟩ := bind_eq_ok h
    obtain ⟨annJ, hanJ, h⟩ := bind_eq_ok h
    obtain ⟨annL, hanL, h⟩ := bind_eq_ok h
    obtain ⟨anns, hanns, h⟩ := bind_eq_ok h
    obtain ⟨cam, hcam, h⟩ := bind_eq_ok h
    obtain ⟨dur, hdur, h⟩ := bind_eq_ok h
    obtain ⟨lp, hlp, h⟩ := bind_eq_ok h
    rw [pure_eq_ok] at h
    injection h with h
    subst h
    refine ⟨kvs, asObj_ok hkvs,
      ⟨scenes, fieldReqStr_ok hscenes, decodeSceneType_ok hscene⟩, ?_, ?_, ?_⟩
    · have h1 := fieldReq_ok hactJ
      rw [asArr_ok hactL] at h1
      exact ⟨actorsL, h1⟩
    · have h1 := fieldReq_ok htlJ
      rw [asArr_ok htlL] at h1
      exact ⟨timelineL, h1⟩
    · have h1 := fieldReq_ok hanJ
      rw [asArr_ok hanL] at h1
      exact ⟨annL, h1⟩
  · intro j a h
    simp only [decodeActor] at h
    obtain ⟨kvs, hkvs, h⟩ := bind_eq_ok h
    obtain ⟨idv, hid, h⟩ := bind_eq_ok h
    obtain ⟨tys, htys, h⟩ := bind_eq_ok h
    obtain ⟨ty, hty, h⟩ := bind_eq_ok h
    obtain ⟨rad, hrad, h⟩ := bind_eq_ok h
    obtain ⟨col, hcol, h⟩ := bind_eq_ok h
    obtain ⟨pos, hpos, h⟩ := bind_eq_ok h
    obtain ⟨rot, hrot, h⟩ := bind_eq_ok h
    obtain ⟨scl, hscl, h⟩ := bind_eq_ok h
    obtain ⟨ms, hms, h⟩ := bind_eq_ok h
    obtain ⟨vel, hvel, h⟩ := bind_eq_ok h
    obtain ⟨tl, htl, h⟩ := bind_eq_ok h
    obtain ⟨orb, horb, h⟩ := bind_eq_ok h
    obtain ⟨emi, hemi, h⟩ := bind_eq_ok h
    obtain ⟨opa, hopa, h⟩ := bind_eq_ok h
    obtain ⟨txt, htxt, h⟩ := bind_eq_ok h
    obtain ⟨fsz, hfsz, h⟩ := bind_eq_ok h
    rw [pure_eq_ok] at h
    injection h with h
    subst h
    exact ⟨kvs, asObj_ok hkvs, fieldReqStr_ok hid,
      ⟨tys, fieldReqStr_ok htys, decodeActorType_ok hty⟩⟩

/-- Claim C6 witness: a successfully decoding document and actor, with the
guaranteed structural facts instantiated. -/
theorem c6_witness :
    (∃ kvs, goodDocJson = Json.obj kvs ∧
      (∃ s, getField kvs "scene" = some (Json.str s) ∧
        parseSceneType s = some goodDoc.scene) ∧
      (∃ xs, getField kvs "actors" = some (Json.arr xs)) ∧
      (∃ ts, getField kvs "timeline" = some (Json.arr ts)) ∧
      (∃ ns, getField kvs "annotations" = some (Json.arr ns))) ∧
    (∃ kvs, minActorJson = Json.obj kvs ∧
      getField kvs "id" = some (Json.str minActor.id) ∧
      (∃ s, getField kvs "type" = some (Json.str s) ∧
        parseActorType s = some minActor.type)) :=
  ⟨c6_decode_soundness.1 goodDocJson goodDoc (by rfl),
   c6_decode_soundness.2 minActorJson minActor (by rfl)⟩

theorem timeOfJson_encodeEvent (e : TimelineEvent) :
    timeOfJson (encodeEvent e) = some e.time := rfl

theorem filterMap_timeOfJson (l : List TimelineEvent) :
    List.filterMap timeOfJson (l.map encodeEvent) = l.map TimelineEvent.time := by
  induction l with
  | nil => rfl
  | cons e t ih => simp [List.filterMap_cons, timeOfJson_encodeEvent, ih]

/-- Claim C3 (amended): the compiler performs no sorting — the timeline
embedded in the compiled output carries the events' start times in their
original document order, whatever that order is. In particular events with
equal time keep their relative order, but the embedded sequence is
non-decreasing only when the input already was. -/
theorem c3_timeline_document_order (i : AnimationInstructions) :
    jsonTimelineTimes (encodeInstructions i) = i.timeline.map TimelineEvent.time := by
  show List.filterMap timeOfJson (i.timeline.map encodeEvent) = _
  exact filterMap_timeOfJson i.timeline

/-- Claim C3 counterexample: a validated document whose timeline is given in
the order t = 2, t = 1 compiles to output whose embedded timeline is in that
same order, which is not non-decreasing. -/
theorem c3_counterexample_unsorted_output :
    jsonTimelineTimes (encodeInstructions unsortedDoc) = [2, 1] ∧
    nondecr [2, 1] = false := by
  constructor
  · rfl
  · decide

/-- Claim C7 (amended): the validator performs no id-uniqueness check — its
result never depends on the value bound to `"actors"` (duplicate ids
included), only on which of the five required keys are present. -/
theorem c7_validator_ignores_actor_values
    (d : List (String × Json)) (v w : Json) :
    validate_animation_instructions (("actors", v) :: d) =
      validate_animation_instructions (("actors", w) :: d) := rfl

/-- Claim C7 counterexample: a document whose two actors share the id `"a"`
is accepted by the validator (result `true`), with no violation reported. -/
theorem c7_counterexample_duplicate_ids_accepted :
    actorIdsOf dupIdDoc = ["a", "a"] ∧
    validate_animation_instructions dupIdDoc = true := by
  constructor
  · rfl
  · rfl

/-- Claim C9: mock reply selection is the ordered first-match rule list — for
every query, `mockResponse` equals trying the solar-system, photosynthesis,
circuit and wave keyword sets in that order against the lowercased query and
taking the first match (custom-scene reply as default); and whenever the
first rule matches, its reply is returned regardless of any later rule. -/
theorem c9_first_matching_rule_wins :
    (∀ q : String, mockResponse q = firstMatchingRule mockRules defaultReply q) ∧
    (∀ q : String, anyKeyword solarKeywords (strToLower q) = true →
      mockResponse q = solarReply) := by
  constructor
  · intro q
    rfl
  · intro q h
    simp [mockResponse, h]

/-- Claim C9 witness: `"earth wave"` matches both the solar-system keywords
(`earth`) and the wave keywords (`wave`); the earlier rule wins. -/
theorem c9_witness :
    mockResponse "earth wave" = solarReply ∧
    anyKeyword waveKeywords (strToLower "earth wave") = true ∧
    mockResponse "earth wave" = firstMatchingRule mockRules defaultReply "earth wave" :=
  ⟨c9_first_matching_rule_wins.2 "earth wave" (by decide), by decide,
   c9_first_matching_rule_wins.1 "earth wave"⟩

/-- Claim C10: `validate_animation_instructions` is total and returns `true`
exactly when the five keys `scene_type`, `actors`, `parameters`, `timeline`
and `annotations` are present — the bound values never matter — and every
mock reply's instruction dictionary passes it. -/
theorem c10_validate_checks_only_key_presence :
    (∀ d : List (String × Json),
        validate_animation_instructions d = true ↔
          ((getField d "scene_type").isSome = true ∧
           (getField d "actors").isSome = true ∧
           (getField d "parameters").isSome = true ∧
           (getField d "timeline").isSome = true ∧
           (getField d "annotations").isSome = true)) ∧
    (∀ q : String,
        validate_animation_instructions (mockResponse q).animation_instructions
          = true) := by
  constructor
  · intro d
    simp [validate_animation_instructions, required_fields, List.all_cons,
      List.all_nil, Bool.and_eq_true, and_assoc]
  · intro q
    simp only [mockResponse]
    split
    · rfl
    · split
      · rfl
      · split
        · rfl
        · split
          · rfl
          · rfl

/-- Claim C10 witness: the key-presence characterization applied to the
duplicate-id document (accepted: all five keys present) and to the empty
dictionary (rejected). -/
theorem c10_witness :
    validate_animation_instructions dupIdDoc = true ∧
    validate_animation_instructions [] = false := by
  refine ⟨(c10_validate_checks_only_key_presence.1 dupIdDoc).mpr ?_, by rfl⟩
  exact ⟨rfl, rfl, rfl, rfl, rfl⟩

/-- Claim C1 (code bug): on the seasons question with no reachable provider
the server answers with the solar-system explanation text (which states the
23.5-degree axial tilt), but `animation_instructions` and `html_animation`
are both null — the mock document (keys `scene_type`, actors as plain
strings, timeline entries without `properties`) fails `AnimationInstructions`
validation, so no solar-system scene with an `earth` actor of tilt 23.5 is
ever returned. -/
theorem c1_seasons_query_text_only (env : ServerEnv) :
    (queryMcp env "Why does the Earth have seasons?").animation_instructions
        = none ∧
    (queryMcp env "Why does the Earth have seasons?").html_animation = none ∧
    (queryMcp env "Why does the Earth have seasons?").text_response
        = solarReply.text ∧
    subStr "axis is tilted 23.5 degrees" solarReply.text = true := by
  have hq : queryMcp env "Why does the Earth have seasons?" =
      ⟨solarReply.text, none, none⟩ := rfl
  rw [hq]
  exact ⟨rfl, rfl, rfl, by decide⟩

/-- Claim C2: whenever the instruction dictionary of the reply fails to
decode as `AnimationInstructions`, the `/query` endpoint still returns a
normal response: the explanation text, with `animation_instructions` and
`html_animation` both null (the failure is absorbed, never surfaced). -/
theorem c2_decode_failure_text_only
    (env : ServerEnv) (q e : String)
    (h : decodeInstructions (Json.obj (mockResponse q).animation_instructions)
          = Except.error e) :
    (queryMcp env q).text_response = (mockResponse q).text ∧
    (queryMcp env q).animation_instructions = none ∧
    (queryMcp env q).html_animation = none := by
  simp only [queryMcp, generateLlmResponse]
  cases hE : (mockResponse q).animation_instructions.isEmpty with
  | false => simp [hE, h]
  | true => simp [hE]

/-- Claim C2 witness: the no-keyword query `"hello"` takes the custom-scene
reply, whose dictionary lacks the required `scene` key and fails decoding;
the response is text-only. -/
theorem c2_witness :
    (queryMcp ⟨none, 0⟩ "hello").text_response = (mockResponse "hello").text ∧
    (queryMcp ⟨none, 0⟩ "hello").animation_instructions = none ∧
    (queryMcp ⟨none, 0⟩ "hello").html_animation = none :=
  c2_decode_failure_text_only ⟨none, 0⟩ "hello" "scene: field required" (by rfl)

theorem str_len_append (a b : String) : (a ++ b).length = a.length + b.length :=
  String.length_append a b

/-- Claim C8 (amended): the compiled output is a deterministic function of
the validated document and of the `animation_engine.js` content read at
compile time — in particular it never depends on the clock, so two compiles
of the same document under the same engine file are byte-identical. -/
theorem c8_compile_deterministic_given_engine
    (env1 env2 : ServerEnv) (i : AnimationInstructions)
    (h : env1.engineFile = env2.engineFile) :
    compileAnimation env1 i = compileAnimation env2 i := by
  have he : getAnimationEngineCode env1 = getAnimationEngineCode env2 := by
    simp only [getAnimationEngineCode, h]
  simp only [compileAnimation, he]

/-- Claim C8 witness: the same document and engine file at two different
clock readings compile byte-identically. -/
theorem c8_witness :
    compileAnimation ⟨some "ENGINE", 0⟩ sampleDoc =
      compileAnimation ⟨some "ENGINE", 42⟩ sampleDoc :=
  c8_compile_deterministic_given_engine ⟨some "ENGINE", 0⟩ ⟨some "ENGINE", 42⟩
    sampleDoc rfl

set_option maxRecDepth 8000 in
/-- Claim C8 counterexample: compiling the same validated document twice is
not byte-identical if the `animation_engine.js` file changed in between —
the compiled output is not a function of the document alone. -/
theorem c8_counterexample_engine_file_changes_output :
    compileAnimation ⟨some "x", 0⟩ sampleDoc ≠
      compileAnimation ⟨some "xy", 0⟩ sampleDoc := by
  intro h
  have hl := congrArg String.length h
  have hx : ("x" : String).length = 1 := rfl
  have hy : ("xy" : String).length = 2 := rfl
  simp only [compileAnimation, getAnimationEngineCode, str_len_append,
    hx, hy] at hl
  omega
